import Mathlib

/-!
Verification of the instruction-building core of the `@discosea/kitchen`
package (`src/instructionBuilder.js` plus its constants and types).

Bytes are modelled as natural numbers (each produced value is `< 256`),
buffers as `List Nat`, and JavaScript strings as Lean `String`s encoded
through an explicit UTF-8 encoder.  Fallible operations return
`Except String`; the "null" sentinel of `cookRecipe` is an `Option` inside
the success case.  The external program-address-derivation primitive
(`PublicKey.findProgramAddressSync` over a 32-byte hash) is a parameter of
the embedded functions, as the spec treats it as an opaque deterministic
collaborator.
-/

/-- Little-endian byte decomposition: `n` bytes of value `v`
(mirrors `Buffer.writeUInt32LE` / `writeBigUInt64LE`). -/
def leBytes (n v : Nat) : List Nat :=
  (List.range n).map (fun i => (v >>> (8 * i)) % 256)

/-- Big-endian byte decomposition: `n` bytes of value `v`. -/
def beBytes (n v : Nat) : List Nat :=
  (List.range n).map (fun i => (v >>> (8 * (n - 1 - i))) % 256)

/-- `encodeU32` from instructionBuilder.js: 4 bytes little-endian. -/
def encodeU32 (value : Nat) : List Nat := leBytes 4 value

/-- `encodeU64` from instructionBuilder.js: 8 bytes little-endian. -/
def encodeU64 (value : Nat) : List Nat := leBytes 8 value

/-- Little-endian decoder used to state byte-level facts about payloads. -/
def decodeLE : List Nat → Nat
  | [] => 0
  | b :: rest => b + 256 * decodeLE rest

/-- UTF-8 encoding of one Unicode code point. -/
def utf8Char (n : Nat) : List Nat :=
  if n < 0x80 then [n]
  else if n < 0x800 then
    [0xC0 ||| (n >>> 6), 0x80 ||| (n &&& 0x3F)]
  else if n < 0x10000 then
    [0xE0 ||| (n >>> 12), 0x80 ||| ((n >>> 6) &&& 0x3F), 0x80 ||| (n &&& 0x3F)]
  else
    [0xF0 ||| (n >>> 18), 0x80 ||| ((n >>> 12) &&& 0x3F),
     0x80 ||| ((n >>> 6) &&& 0x3F), 0x80 ||| (n &&& 0x3F)]

/-- UTF-8 encoding of a string (`Buffer.from(str, "utf-8")` /
`new TextEncoder().encode(str)`). -/
def utf8 (s : String) : List Nat :=
  s.data.flatMap (fun c => utf8Char c.toNat)

/-- `encodeString` from instructionBuilder.js: little-endian u32 byte-length
prefix followed by the UTF-8 bytes. -/
def encodeString (str : String) : List Nat :=
  encodeU32 (utf8 str).length ++ utf8 str

/-- Byte-by-byte copy of `src[0..k)` into `dst[0..k)`
(`Buffer.prototype.copy` / `Uint8Array.prototype.set` restricted to the
offsets used in the source: target start 0, source start 0). -/
def bufCopy (src dst : List Nat) : Nat → List Nat
  | 0 => dst
  | k + 1 => (bufCopy src dst k).set k (src.getD k 0)

/-- The fixed 32-byte salt encoding used by both `createRecipe`
(`saltBytes.copy(saltBuffer, 0, 0, Math.min(saltBytes.length, 32))`) and
`findCookPDA` (`saltBytes.set(encodedSalt.subarray(0, Math.min(..., 32)))`):
a 32-byte zero buffer whose first `min (byteLength, 32)` bytes are the UTF-8
bytes of the salt. -/
def encodeFixedSalt (salt : String) : List Nat :=
  bufCopy (utf8 salt) (List.replicate 32 0) (min (utf8 salt).length 32)

/-! ## SHA-256 (the `createHash("sha256")` collaborator), byte-level -/

/-- 32-bit modular addition. -/
def add32 (a b : Nat) : Nat := (a + b) % 4294967296

/-- 32-bit right rotation. -/
def rotr32 (n x : Nat) : Nat :=
  ((x >>> n) ||| (x <<< (32 - n))) % 4294967296

/-- SHA-256 choice function. -/
def sha2Ch (x y z : Nat) : Nat := (x &&& y) ^^^ ((x ^^^ 0xFFFFFFFF) &&& z)

/-- SHA-256 majority function. -/
def sha2Maj (x y z : Nat) : Nat := (x &&& y) ^^^ (x &&& z) ^^^ (y &&& z)

/-- SHA-256 big sigma 0. -/
def bigSigma0 (x : Nat) : Nat := rotr32 2 x ^^^ rotr32 13 x ^^^ rotr32 22 x

/-- SHA-256 big sigma 1. -/
def bigSigma1 (x : Nat) : Nat := rotr32 6 x ^^^ rotr32 11 x ^^^ rotr32 25 x

/-- SHA-256 small sigma 0. -/
def smallSigma0 (x : Nat) : Nat := rotr32 7 x ^^^ rotr32 18 x ^^^ (x >>> 3)

/-- SHA-256 small sigma 1. -/
def smallSigma1 (x : Nat) : Nat := rotr32 17 x ^^^ rotr32 19 x ^^^ (x >>> 10)

/-- SHA-256 round constants (decimal values of the FIPS 180-4 table). -/
def sha2K : List Nat :=
  [1116352408, 1899447441, 3049323471, 3921009573, 961987163,
   1508970993, 2453635748, 2870763221, 3624381080, 310598401,
   607225278, 1426881987, 1925078388, 2162078206, 2614888103,
   3248222580, 3835390401, 4022224774, 264347078, 604807628,
   770255983, 1249150122, 1555081692, 1996064986, 2554220882,
   2821834349, 2952996808, 3210313671, 3336571891, 3584528711,
   113926993, 338241895, 666307205, 773529912, 1294757372,
   1396182291, 1695183700, 1986661051, 2177026350, 2456956037,
   2730485921, 2820302411, 3259730800, 3345764771, 3516065817,
   3600352804, 4094571909, 275423344, 430227734, 506948616,
   659060556, 883997877, 958139571, 1322822218, 1537002063,
   1747873779, 1955562222, 2024104815, 2227730452, 2361852424,
   2428436474, 2756734187, 3204031479, 3329325298]

/-- SHA-256 initial state (decimal values of the FIPS 180-4 table). -/
def sha2H0 : List Nat :=
  [1779033703, 3144134277, 1013904242, 2773480762, 1359893119,
   2600822924, 528734635, 1541459225]

/-- Groups a byte list into 32-bit big-endian words. -/
def toWordsBE : List Nat → List Nat
  | b0 :: b1 :: b2 :: b3 :: rest =>
    (((b0 * 256 + b1) * 256 + b2) * 256 + b3) :: toWordsBE rest
  | _ => []

/-- SHA-256 padding: `0x80`, zeros to 56 mod 64, then the 64-bit big-endian
bit length. -/
def padMessage (msg : List Nat) : List Nat :=
  msg ++ [0x80] ++ List.replicate ((64 - ((msg.length + 9) % 64)) % 64) 0
    ++ beBytes 8 (msg.length * 8)

/-- Splits a byte list into 64-byte blocks (fuel-indexed, called with
enough fuel to consume the whole list). -/
def chunks64 : Nat → List Nat → List (List Nat)
  | 0, _ => []
  | _, [] => []
  | fuel + 1, l => l.take 64 :: chunks64 fuel (l.drop 64)

/-- Extends the 16 words of a block to the 64-word message schedule. -/
def buildSchedule (w16 : List Nat) : List Nat :=
  (List.range 48).foldl
    (fun w _ =>
      let i := w.length
      w ++ [add32 (add32 (smallSigma1 (w.getD (i - 2) 0)) (w.getD (i - 7) 0))
              (add32 (smallSigma0 (w.getD (i - 15) 0)) (w.getD (i - 16) 0))])
    w16

/-- One SHA-256 compression step over the 8-word state. -/
def sha2Round (w : List Nat) (st : List Nat) (i : Nat) : List Nat :=
  match st with
  | [a, b, c, d, e, f, g, h] =>
    let t1 := add32 (add32 (add32 h (bigSigma1 e))
                (add32 (sha2Ch e f g) (sha2K.getD i 0))) (w.getD i 0)
    let t2 := add32 (bigSigma0 a) (sha2Maj a b c)
    [add32 t1 t2, a, b, c, add32 d t1, e, f, g]
  | other => other

/-- SHA-256 compression of one 64-byte block into the running state. -/
def compressBlock (h : List Nat) (block : List Nat) : List Nat :=
  let w := buildSchedule (toWordsBE block)
  let s := (List.range 64).foldl (sha2Round w) h
  (List.range 8).map (fun i => add32 (h.getD i 0) (s.getD i 0))

/-- SHA-256 of a byte list, as a 32-byte list. -/
def sha256 (msg : List Nat) : List Nat :=
  let padded := padMessage msg
  ((chunks64 padded.length padded).foldl compressBlock sha2H0).flatMap
    (beBytes 4)

set_option maxRecDepth 100000 in
theorem sha256_abc_vector :
    sha256 (utf8 ("abc")) =
      [186, 120, 22, 191, 143, 1, 207, 234,
       65, 65, 64, 222, 93, 174, 34, 35,
       176, 3, 97, 163, 150, 23, 122, 156,
       180, 16, 255, 97, 242, 0, 21, 173] := by
  decide

/-! ## Constants (`src/constants`) -/

/-- `PROGRAM_ID` from constants. -/
def PROGRAM_ID : String := "CooKTkMQ4V1zfr3faLVxgRwSYM86AWXsEbUC3aeDvXTe"

/-- `FEE_ACCOUNT` from constants. -/
def FEE_ACCOUNT : String := "9Hp3RaH2Ve5hG9sBY7shMUSEYy5JcDDRWood8umBgUNm"

/-- `METADATA_PROGRAM_ID` from constants. -/
def METADATA_PROGRAM_ID : String := "metaqbxxUerdq28cj1RbAWkYQm3ybzjb6a8bt518x1s"

/-- Modelled from the spec: the `FEE_ACCOUNT_PUBKEY` export imported by
instructionBuilder.js is not in the constants file included here; the spec
fixes a single fee-account identifier, taken equal to `FEE_ACCOUNT`. -/
def FEE_ACCOUNT_PUBKEY : String := FEE_ACCOUNT

/-- Modelled from the spec: the fixed IPFS-style metadata gateway URL
prefix (`IPFS_GATEWAY`); its value is the one hard-coded in the TypeScript
variant of `createRecipe`. -/
def IPFS_GATEWAY : String := "https://ipfs.io/ipfs/"

/-- `SystemProgram.programId` of the external web3 library. -/
def systemProgramId : String := "11111111111111111111111111111111"

/-- `TOKEN_PROGRAM_ID` of the external spl-token library. -/
def TOKEN_PROGRAM_ID : String := "TokenkegQfeZyiNwAJbNbGKPFXCWuBvf9Ss623VQ5DA"

/-- `SYSVAR_RENT_PUBKEY` of the external web3 library. -/
def SYSVAR_RENT_PUBKEY : String := "SysvarRent111111111111111111111111111111111"

/-! ## Data model (`src/types.ts`, loosened to raw caller input) -/

/-- A raw seed entry: either field may be absent (`undefined`). -/
structure RawSeed where
  mint : Option String
  amount_u64 : Option Nat
deriving DecidableEq

/-- Raw `cookedData` as a caller supplies it: every field may be absent,
and `seeds` may be a non-array value (modelled as a string) or an array. -/
structure RawCookedData where
  pda : Option String
  seeds : Option (String ⊕ List RawSeed)
  salt : Option String
  metadataCid : Option String
  name : Option String
  symbol : Option String
deriving DecidableEq

/-- An entry of the caller-supplied `tokenAccounts` list of `cookRecipe`. -/
structure TokenAccount where
  mint : Option String
deriving DecidableEq

/-- One entry of a Solana account-key list. -/
structure AccountMeta where
  pubkey : String
  isSigner : Bool
  isWritable : Bool
deriving DecidableEq

/-- The value returned by the instruction assemblers. -/
structure TransactionInstruction where
  keys : List AccountMeta
  programId : String
  data : List Nat
deriving DecidableEq

/-- JavaScript truthiness of an optional string field
(absent and the empty string are falsy). -/
def truthyStr : Option String → Bool
  | Option.none => false
  | Option.some s => !s.isEmpty

/-- JavaScript truthiness of the `seeds` field: an absent field or an empty
string is falsy; every array (even empty) is truthy. -/
def truthySeeds : Option (String ⊕ List RawSeed) → Bool
  | Option.none => false
  | Option.some (Sum.inl s) => !s.isEmpty
  | Option.some (Sum.inr _) => true

/-- The seed list of a request whose `seeds` field is an array
(`[]` otherwise; the assemblers only reach it after validation). -/
def seedsList (d : RawCookedData) : List RawSeed :=
  match d.seeds with
  | Option.some (Sum.inr l) => l
  | _ => []

/-- The check `s.mint && s.amount_u64 !== undefined` applied to one seed. -/
def seedOk (s : RawSeed) : Bool :=
  truthyStr s.mint && s.amount_u64.isSome

/-! ## `validateCookedData` (instructionBuilder.js, lines 42-73) -/

/-- `validateCookedData` from instructionBuilder.js: rejects a non-object
input; rejects any falsy field among `pda`, `seeds`, `salt`,
`metadataCid`, `name`, `symbol` (in that order, naming the field); rejects
a non-array `seeds`; rejects a seed failing `seedOk`; otherwise returns
the input unchanged. -/
def validateCookedData : Option RawCookedData → Except String RawCookedData
  | Option.none => Except.error ("Invalid cookedData: Input must be an object.")
  | Option.some d =>
    if !truthyStr d.pda then
      Except.error ("Invalid cookedData: Missing required field \x27pda\x27.")
    else if !truthySeeds d.seeds then
      Except.error ("Invalid cookedData: Missing required field \x27seeds\x27.")
    else if !truthyStr d.salt then
      Except.error ("Invalid cookedData: Missing required field \x27salt\x27.")
    else if !truthyStr d.metadataCid then
      Except.error ("Invalid cookedData: Missing required field \x27metadataCid\x27.")
    else if !truthyStr d.name then
      Except.error ("Invalid cookedData: Missing required field \x27name\x27.")
    else if !truthyStr d.symbol then
      Except.error ("Invalid cookedData: Missing required field \x27symbol\x27.")
    else
      match d.seeds with
      | Option.some (Sum.inr seeds) =>
        if seeds.all seedOk then Except.ok d
        else Except.error ("Invalid cookedData: Each seed must have \x27mint\x27 and \x27amount_u64\x27.")
      | _ => Except.error ("Invalid cookedData: \x27seeds\x27 must be an array.")

/-! ## `findCookPDA` (instructionBuilder.js, lines 184-212) -/

/-- The result record of `findCookPDA`. -/
structure PDAResult where
  pda : List Nat
  bump : Nat
  sha256Hash : List Nat
deriving DecidableEq

/-- `findCookPDA` from instructionBuilder.js, parameterized by the external
`PublicKey.findProgramAddressSync([hash], PROGRAM_ID)` primitive
(`findProgramAddress`, a deterministic function of the 32-byte hash):
appends the fixed 32-byte salt encoding to the caller-concatenated data,
hashes with SHA-256, and derives the address from that hash. -/
def findCookPDA (findProgramAddress : List Nat → List Nat × Nat)
    (concatenatedData : List Nat) (salt : String) : PDAResult :=
  let saltBytes := encodeFixedSalt salt
  let concatenated := concatenatedData ++ saltBytes
  let sha256Hash := sha256 concatenated
  let pdaBump := findProgramAddress sha256Hash
  { pda := pdaBump.1, bump := pdaBump.2, sha256Hash := sha256Hash }

/-- Modelled from the spec: step 2 of `deriveAddress` (spec 4.3) — the
caller-side byte accumulation handed to `findCookPDA` as
`concatenatedData`: for each seed in the given order, its 32-byte
identifier followed by its 8-byte little-endian quantity.  No
canonicalization step exists under src/. -/
def concatSeeds (seeds : List (List Nat × Nat)) : List Nat :=
  seeds.flatMap (fun s => s.1 ++ encodeU64 s.2)

/-! ## `createRecipe` (instructionBuilder.js, lines 91-174) -/

/-- `createRecipe` from instructionBuilder.js, parameterized by the
external metadata-PDA derivation
(`PublicKey.findProgramAddress(["metadata", METADATA_PROGRAM_ID, pda],
METADATA_PROGRAM_ID)`, modelled as a deterministic function `metaPDA` of
the recipe address). -/
def createRecipe (metaPDA : String → String) (feePayerPubkey : String)
    (cookedData : Option RawCookedData) : Except String TransactionInstruction := do
  let d ← validateCookedData cookedData
  let pda := d.pda.getD ("")
  let seeds := seedsList d
  let salt := d.salt.getD ("")
  let metadataCid := d.metadataCid.getD ("")
  let name := d.name.getD ("")
  let symbol := d.symbol.getD ("")
  let uri := IPFS_GATEWAY ++ metadataCid
  let pdaPubkey := pda
  let metadataPda := metaPDA pdaPubkey
  let accounts : List AccountMeta :=
    [ { pubkey := feePayerPubkey, isSigner := true, isWritable := true },
      { pubkey := FEE_ACCOUNT_PUBKEY, isSigner := false, isWritable := false },
      { pubkey := pdaPubkey, isSigner := false, isWritable := true },
      { pubkey := metadataPda, isSigner := false, isWritable := true },
      { pubkey := systemProgramId, isSigner := false, isWritable := false },
      { pubkey := TOKEN_PROGRAM_ID, isSigner := false, isWritable := false },
      { pubkey := SYSVAR_RENT_PUBKEY, isSigner := false, isWritable := false },
      { pubkey := METADATA_PROGRAM_ID, isSigner := false, isWritable := false } ]
    ++ (seeds.filter (fun s => truthyStr s.mint)).map
        (fun s => { pubkey := s.mint.getD (""), isSigner := false, isWritable := false })
  let amounts := seeds.map (fun s => s.amount_u64.getD 0)
  let amountsLen := encodeU32 amounts.length
  let amountsData := amounts.flatMap encodeU64
  let instructionData := [0x01] ++ amountsLen ++ amountsData
  let saltBuffer := encodeFixedSalt salt
  let instructionData := instructionData ++ saltBuffer
  let nameData := encodeString name
  let symbolData := encodeString symbol
  let uriData := encodeString uri
  let instructionData := instructionData ++ nameData ++ symbolData ++ uriData
  Except.ok { keys := accounts, programId := PROGRAM_ID, data := instructionData }

/-! ## `cookRecipe` (instructionBuilder.js, lines 214-314) -/

/-- `cookRecipe` from instructionBuilder.js: after validation it returns
the `null` sentinel (`Except.ok Option.none`) when
`tokenAccounts.length !== 2 * seeds.length`; otherwise it builds the
payload prefix and account list exactly as `createRecipe` does (with first
byte 0x02) and then evaluates `encodeString(uri)` where `uri` is not bound
in the function's scope, so the call throws a `ReferenceError` and never
returns an instruction. -/
def cookRecipe (metaPDA : String → String) (feePayerPubkey : String)
    (cookedData : Option RawCookedData) (tokenAccounts : List TokenAccount) :
    Except String (Option TransactionInstruction) := do
  let d ← validateCookedData cookedData
  let seeds := seedsList d
  if tokenAccounts.length != 2 * seeds.length then
    return Option.none
  let pda := d.pda.getD ("")
  let salt := d.salt.getD ("")
  let pdaPubkey := pda
  let metadataPda := metaPDA pdaPubkey
  let accounts : List AccountMeta :=
    [ { pubkey := feePayerPubkey, isSigner := true, isWritable := true },
      { pubkey := FEE_ACCOUNT_PUBKEY, isSigner := false, isWritable := false },
      { pubkey := pdaPubkey, isSigner := false, isWritable := true },
      { pubkey := metadataPda, isSigner := false, isWritable := true },
      { pubkey := systemProgramId, isSigner := false, isWritable := false },
      { pubkey := TOKEN_PROGRAM_ID, isSigner := false, isWritable := false },
      { pubkey := SYSVAR_RENT_PUBKEY, isSigner := false, isWritable := false },
      { pubkey := METADATA_PROGRAM_ID, isSigner := false, isWritable := false } ]
    ++ (seeds.filter (fun s => truthyStr s.mint)).map
        (fun s => { pubkey := s.mint.getD (""), isSigner := false, isWritable := false })
  let amounts := seeds.map (fun s => s.amount_u64.getD 0)
  let amountsLen := encodeU32 amounts.length
  let amountsData := amounts.flatMap encodeU64
  let instructionData := [0x02] ++ amountsLen ++ amountsData
  let saltBuffer := encodeFixedSalt salt
  let instructionData := instructionData ++ saltBuffer
  let nameData := encodeString (d.name.getD (""))
  let symbolData := encodeString (d.symbol.getD (""))
  Except.error ("ReferenceError: uri is not defined")

/-! ## Spec-side characterizations (named after the spec wording, to be
compared with the embedded source functions) -/

/-- The create payload layout as the spec states it:
`[0x01][seed_count:u32][quantities][salt:32][name][symbol][uri]` with
`uri = gateway ++ metadata_reference`. -/
def specCreatePayload (d : RawCookedData) : List Nat :=
  [0x01] ++ encodeU32 (seedsList d).length
    ++ ((seedsList d).map (fun s => s.amount_u64.getD 0)).flatMap encodeU64
    ++ encodeFixedSalt (d.salt.getD (""))
    ++ encodeString (d.name.getD (""))
    ++ encodeString (d.symbol.getD (""))
    ++ encodeString (IPFS_GATEWAY ++ d.metadataCid.getD (""))

/-- The create account list as the code actually builds it: payer
(signer, writable), fee account (read-only), derived address (writable),
metadata address (writable), system program, token program, rent sysvar,
metadata program, then one read-only reference per seed with a truthy
asset identifier, in input order.  There is no config account. -/
def specCreateAccounts (metaPDA : String → String) (payer : String)
    (d : RawCookedData) : List AccountMeta :=
  [ { pubkey := payer, isSigner := true, isWritable := true },
    { pubkey := FEE_ACCOUNT_PUBKEY, isSigner := false, isWritable := false },
    { pubkey := d.pda.getD (""), isSigner := false, isWritable := true },
    { pubkey := metaPDA (d.pda.getD ("")), isSigner := false, isWritable := true },
    { pubkey := systemProgramId, isSigner := false, isWritable := false },
    { pubkey := TOKEN_PROGRAM_ID, isSigner := false, isWritable := false },
    { pubkey := SYSVAR_RENT_PUBKEY, isSigner := false, isWritable := false },
    { pubkey := METADATA_PROGRAM_ID, isSigner := false, isWritable := false } ]
  ++ ((seedsList d).filter (fun s => truthyStr s.mint)).map
      (fun s => { pubkey := s.mint.getD (""), isSigner := false, isWritable := false })

/-- The `seeds` field holds an array whose every entry passes `seedOk`. -/
def seedsArrayOk : Option (String ⊕ List RawSeed) → Bool
  | Option.some (Sum.inr l) => l.all seedOk
  | _ => false

/-- The acceptance condition of `validateCookedData` on an object input,
as one boolean: all six fields truthy, `seeds` an array, every seed with a
truthy `mint` and a present `amount_u64`. -/
def cookedDataOk (d : RawCookedData) : Bool :=
  truthyStr d.pda && truthySeeds d.seeds && truthyStr d.salt &&
  truthyStr d.metadataCid && truthyStr d.name && truthyStr d.symbol &&
  seedsArrayOk d.seeds

/-- Whether an `Except` outcome is the error case. -/
def isErr {α : Type} : Except String α → Bool
  | Except.error _ => true
  | Except.ok _ => false

/-- Modelled from the spec: the shared cook/uncook assembler with an
opcode argument (spec 4.5: opcodes 0x02/0x03, trailer
`encodeU64(amount)`; any other opcode is rejected).  It is absent under
src/, where `cookRecipe` hard-codes 0x02 and takes no opcode. -/
def buildCookUncookPayload (opcode : Nat) (seeds : List (List Nat × Nat))
    (salt : String) (amount : Nat) : Option (List Nat) :=
  if opcode = 0x02 ∨ opcode = 0x03 then
    Option.some ([opcode] ++ encodeU32 seeds.length
      ++ (seeds.map (fun s => s.2)).flatMap encodeU64
      ++ encodeFixedSalt salt ++ encodeU64 amount)
  else Option.none

/-! ## Concrete request used by the test suite (tests/createRecipe.test.js) -/

/-- The valid fee payer of the end-to-end test. -/
def testFeePayer : String := "4PYfccDjZpjthkDkKPGQHEZXtSooRwgHCQJTig4myc7x"

/-- The valid request of the end-to-end test: one seed of quantity 100. -/
def testCookedData : RawCookedData :=
  { pda := Option.some ("2ELzNwTHL5r7kttWF5iNvhEXBF8P64LtNqoQ334t9Zn6"),
    seeds := Option.some (Sum.inr
      [{ mint := Option.some ("4o5wmhvHtF8JuauJgrzWpR6dyCNQJn9MYwCHNUhBXxve"),
         amount_u64 := Option.some 100 }]),
    salt := Option.some ("random-salt"),
    metadataCid := Option.some ("some-metadata-cid"),
    name := Option.some ("Test Recipe"),
    symbol := Option.some ("TST") }

/-- A valid request whose two seeds arrive in one order. -/
def reqAB : RawCookedData :=
  { testCookedData with
    seeds := Option.some (Sum.inr
      [{ mint := Option.some ("BBBBBBBBBBBBBBBBBBBBBBBBBBBBBBBB"),
         amount_u64 := Option.some 2 },
       { mint := Option.some ("AAAAAAAAAAAAAAAAAAAAAAAAAAAAAAAA"),
         amount_u64 := Option.some 1 }]) }

/-- The same request with the two seeds in the opposite order. -/
def reqBA : RawCookedData :=
  { testCookedData with
    seeds := Option.some (Sum.inr
      [{ mint := Option.some ("AAAAAAAAAAAAAAAAAAAAAAAAAAAAAAAA"),
         amount_u64 := Option.some 1 },
       { mint := Option.some ("BBBBBBBBBBBBBBBBBBBBBBBBBBBBBBBB"),
         amount_u64 := Option.some 2 }]) }

/-! ## Helper lemmas -/

theorem bufCopy_take_append (src dst : List Nat) :
    ∀ k, k ≤ src.length → k ≤ dst.length →
      bufCopy src dst k = src.take k ++ dst.drop k := by
  intro k
  induction k with
  | zero => intro _ _; simp [bufCopy]
  | succ k ih =>
    intro hk hd
    have hk1 : k ≤ src.length := Nat.le_of_succ_le hk
    have hd1 : k ≤ dst.length := Nat.le_of_succ_le hd
    have hklt : k < src.length := hk
    have hdlt : k < dst.length := hd
    rw [bufCopy, ih hk1 hd1, List.set_append]
    have htk : (src.take k).length = k := by
      rw [List.length_take]; exact Nat.min_eq_left hk1
    rw [htk, if_neg (Nat.lt_irrefl k), Nat.sub_self]
    rw [List.drop_eq_getElem_cons hdlt, List.set_cons_zero]
    rw [List.getD_eq_getElem?_getD, List.getElem?_eq_getElem hklt]
    have hts : List.take (k + 1) src = List.take k src ++ [src[k]] := by
      rw [List.take_succ, List.getElem?_eq_getElem hklt]
      rfl
    rw [hts, List.append_assoc]
    rfl

theorem encodeFixedSalt_take_pad (salt : String) :
    encodeFixedSalt salt =
      (utf8 salt).take 32 ++ List.replicate (32 - min (utf8 salt).length 32) 0 := by
  unfold encodeFixedSalt
  have h1 : min (utf8 salt).length 32 ≤ (utf8 salt).length := Nat.min_le_left _ _
  have h2 : min (utf8 salt).length 32 ≤ (List.replicate 32 (0 : Nat)).length := by
    simp
  rw [bufCopy_take_append _ _ _ h1 h2, List.drop_replicate]
  have htake : (utf8 salt).take (min (utf8 salt).length 32) = (utf8 salt).take 32 := by
    rcases Nat.le_total (utf8 salt).length 32 with hle | hge
    · rw [Nat.min_eq_left hle, List.take_length, List.take_of_length_le hle]
    · rw [Nat.min_eq_right hge]
  rw [htake]

theorem encodeFixedSalt_len (salt : String) :
    (encodeFixedSalt salt).length = 32 := by
  rw [encodeFixedSalt_take_pad]
  simp [List.length_take, List.length_replicate]
  omega

theorem validateCookedData_ok_eq (x : Option RawCookedData) (r : RawCookedData)
    (h : validateCookedData x = Except.ok r) : x = Option.some r := by
  cases x with
  | none => simp [validateCookedData] at h
  | some d =>
    unfold validateCookedData at h
    repeat' split at h
    all_goals simp_all

/-! ## Claim theorems -/

set_option maxRecDepth 400000 in
/-- C1 (counterexample). The address derivation of `findCookPDA` is NOT
independent of caller-supplied seed order: for the two-seed set with
identifiers `replicate 32 1` and `replicate 32 2` (quantities 1 and 2) and
salt `"salt"`, the two seed orders produce different SHA-256 hashes, hence
different (address, bump, hash) triples — the hash component of the result
does not depend on the external address primitive at all.  No sorting of
seeds happens before their bytes enter the hash. -/
theorem findCookPDA_order_matters :
    (findCookPDA (fun h => (h, 255))
        (concatSeeds [(List.replicate 32 1, 1), (List.replicate 32 2, 2)])
        ("salt")).sha256Hash ≠
      (findCookPDA (fun h => (h, 255))
        (concatSeeds [(List.replicate 32 2, 2), (List.replicate 32 1, 1)])
        ("salt")).sha256Hash := by
  decide

/-- C1 (amended). `findCookPDA` performs no canonicalization, so address
derivation is order-dependent (see the counterexample); what does hold is
determinism: the triple depends only on the concatenated data bytes and
the 32-byte fixed salt encoding, so for any derivation primitive and any
two salts with equal fixed encodings the triples coincide. -/
theorem findCookPDA_deterministic (f : List Nat → List Nat × Nat)
    (d : List Nat) (s1 s2 : String)
    (h : encodeFixedSalt s1 = encodeFixedSalt s2) :
    findCookPDA f d s1 = findCookPDA f d s2 := by
  unfold findCookPDA
  rw [h]

/-- C1 (witness): two distinct 33-character salts share their fixed
32-byte encoding, and the theorem yields equal derivation results. -/
theorem findCookPDA_deterministic_witness :
    encodeFixedSalt ("aaaaaaaaaaaaaaaaaaaaaaaaaaaaaaaaX") =
        encodeFixedSalt ("aaaaaaaaaaaaaaaaaaaaaaaaaaaaaaaaY") ∧
      findCookPDA (fun h => (h, 255)) [] ("aaaaaaaaaaaaaaaaaaaaaaaaaaaaaaaaX") =
        findCookPDA (fun h => (h, 255)) [] ("aaaaaaaaaaaaaaaaaaaaaaaaaaaaaaaaY") :=
  ⟨by decide,
   findCookPDA_deterministic (fun h => (h, 255)) []
     ("aaaaaaaaaaaaaaaaaaaaaaaaaaaaaaaaX") ("aaaaaaaaaaaaaaaaaaaaaaaaaaaaaaaaY")
     (by decide)⟩

/-- C3 (counterexample). `validateCookedData` does not normalize: the same
two-seed set supplied in either order is accepted and returned exactly as
given, so the two accepted results differ — the returned seeds cannot
both be "sorted ascending", and no derived-address field is filled in
(the result is the input object, unchanged). -/
theorem validateCookedData_no_normalization :
    validateCookedData (Option.some reqAB) = Except.ok reqAB ∧
      validateCookedData (Option.some reqBA) = Except.ok reqBA ∧
      reqAB ≠ reqBA := by
  refine ⟨rfl, rfl, ?_⟩
  decide

/-- C3 (amended). On success the creation validator returns its input
unchanged: no seed sorting and no derived-address computation occur. -/
theorem validateCookedData_returns_input (x : Option RawCookedData)
    (r : RawCookedData) (h : validateCookedData x = Except.ok r) :
    x = Option.some r :=
  validateCookedData_ok_eq x r h

/-- C3 (witness): the test request is accepted and returned unchanged. -/
theorem validateCookedData_returns_input_witness :
    validateCookedData (Option.some testCookedData) = Except.ok testCookedData ∧
      (Option.some testCookedData : Option RawCookedData) = Option.some testCookedData :=
  ⟨rfl, validateCookedData_returns_input (Option.some testCookedData) testCookedData rfl⟩

/-- C9. The fixed-width salt encoder always returns exactly 32 bytes and
never fails: the UTF-8 bytes truncated at 32 if longer, zero-padded on
the right if shorter. -/
theorem encodeFixedSalt_spec (salt : String) :
    (encodeFixedSalt salt).length = 32 ∧
      encodeFixedSalt salt =
        (utf8 salt).take 32 ++ List.replicate (32 - min (utf8 salt).length 32) 0 :=
  ⟨encodeFixedSalt_len salt, encodeFixedSalt_take_pad salt⟩

/-- C10. On every input that passes validation and the token-account
length check, `cookRecipe` reaches `encodeString(uri)` with `uri` unbound
in its scope, so it never returns a built instruction: every call either
throws (`Except.error`) or returns the null sentinel (`Except.ok none`). -/
theorem cookRecipe_never_builds (mp : String → String) (p : String)
    (x : Option RawCookedData) (tas : List TokenAccount) :
    cookRecipe mp p x tas = Except.ok Option.none ∨
      isErr (cookRecipe mp p x tas) = true := by
  unfold cookRecipe
  cases h : validateCookedData x with
  | error e =>
    right
    simp [Bind.bind, Except.bind, isErr]
  | ok d =>
    simp only [Bind.bind, Except.bind]
    split
    · left
      rfl
    · right
      rfl

/-- C7 (code evaluated at the failing input). A valid single-seed request
with a token-account list passing the length check makes `cookRecipe`
throw the `uri` ReferenceError instead of appending any
`encodeU64(quantity)` trailer. -/
theorem cookRecipe_uri_reference_error :
    cookRecipe (fun s => s) testFeePayer (Option.some testCookedData)
        [{ mint := Option.some ("t1") }, { mint := Option.some ("t2") }] =
      Except.error ("ReferenceError: uri is not defined") := by
  rfl

/-- C4 (counterexample). For the valid one-seed request and a
token-account list of length `2*1 + 2 = 4`, `cookRecipe` DOES report the
"insufficient accounts" sentinel (`null`), because the source checks
`tokenAccounts.length !== 2 * seeds.length`, not `2 * seeds.length + 2`. -/
theorem cookRecipe_sentinel_at_2n_plus_2 :
    cookRecipe (fun s => s) testFeePayer (Option.some testCookedData)
        [{ mint := Option.some ("t1") }, { mint := Option.some ("t2") },
         { mint := Option.some ("t3") }, { mint := Option.some ("t4") }] =
      Except.ok Option.none := by
  rfl

/-- C4 (amended). For every request accepted by the validator,
`cookRecipe` returns the null sentinel (instead of throwing) exactly when
the token-account list length differs from `2 * seeds.length`; at exactly
`2 * seeds.length` it does not report this failure. -/
theorem cookRecipe_sentinel_iff (mp : String → String) (p : String)
    (d : RawCookedData) (tas : List TokenAccount) :
    cookRecipe mp p (Option.some d) tas = Except.ok Option.none ↔
      (isErr (validateCookedData (Option.some d)) = false ∧
        tas.length ≠ 2 * (seedsList d).length) := by
  unfold cookRecipe
  cases h : validateCookedData (Option.some d) with
  | error e => simp [Bind.bind, Except.bind, isErr]
  | ok r =>
    have hr : d = r := by
      have := validateCookedData_ok_eq (Option.some d) r h
      exact (Option.some.injEq d r).mp this
    subst hr
    simp only [Bind.bind, Except.bind, isErr]
    split
    · rename_i hlen
      rw [bne_iff_ne] at hlen
      simp [hlen, Pure.pure, Except.pure]
    · rename_i hlen
      simp only [bne_iff_ne, Decidable.not_not] at hlen
      simp [hlen, Pure.pure, Except.pure]

/-- C8 (spec-modelled). The shared cook/uncook assembler rejects every
opcode other than 0x02 and 0x03, and on 0x02/0x03 the selected opcode is
the first payload byte. -/
theorem cookUncook_opcode_check (opcode : Nat) (seeds : List (List Nat × Nat))
    (salt : String) (amount : Nat) :
    (opcode ≠ 0x02 ∧ opcode ≠ 0x03 →
        buildCookUncookPayload opcode seeds salt amount = Option.none) ∧
      (∀ p, buildCookUncookPayload opcode seeds salt amount = Option.some p →
        p.head? = Option.some opcode) := by
  unfold buildCookUncookPayload
  constructor
  · intro hne
    rw [if_neg]
    intro hor
    rcases hor with h2 | h3
    · exact hne.1 h2
    · exact hne.2 h3
  · intro p hp
    split at hp
    · cases hp
      rfl
    · cases hp

/-- C8 (witness): opcode 5 is rejected; opcode 3 is accepted and heads
its payload. -/
theorem cookUncook_opcode_check_witness :
    ((5 : Nat) ≠ 0x02 ∧ (5 : Nat) ≠ 0x03) ∧
      buildCookUncookPayload 5 [] ("") 0 = Option.none ∧
      buildCookUncookPayload 3 [] ("") 0 =
        Option.some ([3] ++ encodeU32 0 ++ encodeFixedSalt ("") ++ encodeU64 0) ∧
      ([3] ++ encodeU32 0 ++ encodeFixedSalt ("") ++ encodeU64 0).head? =
        Option.some 3 :=
  ⟨⟨by decide, by decide⟩,
   (cookUncook_opcode_check 5 [] ("") 0).1 ⟨by decide, by decide⟩,
   rfl,
   (cookUncook_opcode_check 3 [] ("") 0).2 _ rfl⟩

/-- C2. For every request, the payload of `createRecipe` is exactly
`[0x01][seed_count:u32 LE][seed_count quantities as u64 LE][32 salt bytes]
[encodeString name][encodeString symbol][encodeString (gateway ++ cid)]`
(both sides erroring identically on invalid requests); in particular, on
the one-seed quantity-100 test request the first byte is 0x01, the next 4
bytes decode (LE) to 1 and the following 8 bytes decode (LE) to 100. -/
theorem createRecipe_payload_layout :
    (∀ (mp : String → String) (p : String) (x : Option RawCookedData),
        (createRecipe mp p x).map (fun i => i.data) =
          (validateCookedData x).map specCreatePayload) ∧
      (createRecipe (fun s => s) testFeePayer (Option.some testCookedData)).map
          (fun i => i.data.take 1) = Except.ok [0x01] ∧
      (createRecipe (fun s => s) testFeePayer (Option.some testCookedData)).map
          (fun i => decodeLE ((i.data.drop 1).take 4)) = Except.ok 1 ∧
      (createRecipe (fun s => s) testFeePayer (Option.some testCookedData)).map
          (fun i => decodeLE ((i.data.drop 5).take 8)) = Except.ok 100 := by
  refine ⟨?_, rfl, rfl, rfl⟩
  intro mp p x
  cases h : validateCookedData x with
  | error e => simp [createRecipe, h, Except.map, Bind.bind, Except.bind]
  | ok d =>
    simp [createRecipe, h, Except.map, Bind.bind, Except.bind, specCreatePayload,
      List.length_map, List.append_assoc]

/-- C6 (counterexample). On the valid one-seed test request the account
list of `createRecipe` has 9 entries (8 fixed accounts plus one seed
mint) — not the 10 the claim requires — and its second entry, the fee
account, is read-only, not writable; no config account exists. -/
theorem createRecipe_no_config_account :
    (createRecipe (fun s => s) testFeePayer (Option.some testCookedData)).map
        (fun i => i.keys.length) = Except.ok 9 ∧
      (createRecipe (fun s => s) testFeePayer (Option.some testCookedData)).map
          (fun i => (i.keys.drop 1).head?) =
        Except.ok (Option.some
          { pubkey := FEE_ACCOUNT_PUBKEY, isSigner := false, isWritable := false }) :=
  ⟨rfl, rfl⟩

/-- C6 (amended). For every request, the account list of `createRecipe`
is exactly: payer (signer, writable), fee account (read-only), derived
address (writable), the metadata address derived from the derived address
(writable), system program, token program, rent sysvar, metadata program,
then one read-only reference per seed asset identifier in input order;
there is no config account. -/
theorem createRecipe_account_list (mp : String → String) (p : String)
    (x : Option RawCookedData) :
    (createRecipe mp p x).map (fun i => i.keys) =
      (validateCookedData x).map (specCreateAccounts mp p) := by
  cases h : validateCookedData x with
  | error e => simp [createRecipe, h, Except.map, Bind.bind, Except.bind]
  | ok d =>
    simp [createRecipe, h, Except.map, Bind.bind, Except.bind, specCreateAccounts]

/-- C5 (counterexample). A request that is complete except that its salt
is the empty string is REJECTED (`""` is falsy in the source's
`!cookedData[field]` check), not accepted as the claim states. -/
theorem validateCookedData_rejects_empty_salt :
    isErr (validateCookedData (Option.some
      { testCookedData with salt := Option.some ("") })) = true := by
  rfl

/-- C5 (amended). `validateCookedData` fails (with a message naming the
offending field) if and only if: the input is not an object, or any of
`pda`, `seeds`, `salt`, `metadataCid`, `name`, `symbol` is absent or
falsy (in particular an empty-string salt is rejected), or `seeds` is not
an array, or some seed lacks a truthy `mint` or a present `amount_u64`. -/
theorem validateCookedData_error_iff :
    isErr (validateCookedData Option.none) = true ∧
      ∀ d : RawCookedData,
        isErr (validateCookedData (Option.some d)) = !cookedDataOk d := by
  refine ⟨rfl, ?_⟩
  intro d
  unfold validateCookedData cookedDataOk
  rcases hds : d.seeds with _ | sl
  · cases hp : truthyStr d.pda <;> cases hsa : truthyStr d.salt <;>
      cases hmc : truthyStr d.metadataCid <;> cases hn : truthyStr d.name <;>
      cases hsy : truthyStr d.symbol <;>
      simp [hds, truthySeeds, isErr, seedsArrayOk, hp, hsa, hmc, hn, hsy]
  · rcases sl with s | l
    · cases hp : truthyStr d.pda <;> cases hse : s.isEmpty <;>
        cases hsa : truthyStr d.salt <;> cases hmc : truthyStr d.metadataCid <;>
        cases hn : truthyStr d.name <;> cases hsy : truthyStr d.symbol <;>
        simp [hds, truthySeeds, isErr, seedsArrayOk, hp, hse, hsa, hmc, hn, hsy]
    · cases hp : truthyStr d.pda <;> cases hsa : truthyStr d.salt <;>
        cases hmc : truthyStr d.metadataCid <;> cases hn : truthyStr d.name <;>
        cases hsy : truthyStr d.symbol <;> cases hall : l.all seedOk <;>
        simp [hds, truthySeeds, isErr, seedsArrayOk, hp, hsa, hmc, hn, hsy, hall]
